import Mathlib

/-!
Shallow embedding of the PLAN-DIARIO repository, files leer_excel.py and
dashboard_csv.py, together with theorems settling the specification claims.

Modelling conventions:
* Python floats are modelled by rationals (all values appearing in the
  claims are exact decimals, so no float-specific behaviour is involved).
* A spreadsheet cell value is an inductive type: a missing cell, a numeric
  cell, or a text cell.  A text cell carries, as part of the environment
  model, the result of the Python float() parse of its text (some q when
  the text parses as the number q, none when parsing fails).
* Python dicts are association lists that preserve insertion order;
  dictInsert reproduces dict assignment (overwrite in place, else append).
* A workbook is its sheet-name list plus a cell function per sheet.
-/

namespace PlanDiario

/-- Value held by one spreadsheet cell. -/
inductive CellValue where
  | nulo : CellValue
  | numero : ℚ → CellValue
  | texto : String → Option ℚ → CellValue
  deriving DecidableEq

/-- Embedding of leer_excel._safe_float: None and unparseable text coerce
to 0.0, numbers and parseable text coerce to their numeric value. -/
def _safe_float : CellValue → ℚ
  | CellValue.nulo => 0
  | CellValue.numero q => q
  | CellValue.texto _ (some q) => q
  | CellValue.texto _ none => 0

/-- Python strip(): drop whitespace from both ends of a string.  Defined
on the character list of the string so that it evaluates by reduction. -/
def pyStrip (s : String) : String :=
  String.mk (((s.data.dropWhile Char.isWhitespace).reverse.dropWhile
    Char.isWhitespace).reverse)

/-- Embedding of leer_excel._safe_str: None coerces to the empty string,
any other value to its textual representation trimmed of surrounding
whitespace.  The textual representation of a numeric cell is abstracted
by the rational printer; no claim depends on its exact digits. -/
def _safe_str : CellValue → String
  | CellValue.nulo => ""
  | CellValue.numero q => pyStrip (toString q)
  | CellValue.texto s _ => pyStrip s

/-- Round a rational to the nearest integer, ties to even: the rounding
Python round() applies to the scaled value. -/
def roundHalfEven (x : ℚ) : ℤ :=
  let n := ⌊x⌋
  let r := x - (n : ℚ)
  if r < 1 / 2 then n
  else if 1 / 2 < r then n + 1
  else if n % 2 = 0 then n else n + 1

/-- Embedding of the Python expression round(x, 1). -/
def round1 (x : ℚ) : ℚ := ((roundHalfEven (x * 10) : ℚ)) / 10

/-- Equipment record, dataclass EquipoData of leer_excel.py. -/
structure EquipoData where
  equipo : String
  turno_a : ℚ
  turno_b : ℚ
  total : ℚ
  plan : ℚ
  cumplimiento_ta : ℚ
  cumplimiento_tb : ℚ
  cumplimiento_diario : ℚ
  estado_ta : String
  estado_tb : String
  deriving DecidableEq, Inhabited

/-- Phase record, dataclass FaseData of leer_excel.py. -/
structure FaseData where
  fase : String
  equipos : List EquipoData
  total_turno_a : ℚ
  total_turno_b : ℚ
  total : ℚ
  plan : ℚ
  cumplimiento_ta : ℚ
  cumplimiento_tb : ℚ
  cumplimiento_diario : ℚ
  deriving DecidableEq, Inhabited

/-- ROC record, dataclass MetrosRocData of leer_excel.py. -/
structure MetrosRocData where
  fase_9 : ℚ
  fase_10 : ℚ
  fase_11 : ℚ
  fase_12 : ℚ
  plan_diario : ℚ
  turno_a : ℚ
  turno_b : ℚ
  total : ℚ
  deriving DecidableEq, Inhabited

/-- Day record, dataclass DiaData of leer_excel.py.  The fases dict is an
association list from phase label to phase record, in insertion order. -/
structure DiaData where
  fecha : String
  fases : List (String × FaseData)
  total_turno_a : ℚ
  total_turno_b : ℚ
  total_metros : ℚ
  plan_total : ℚ
  cumplimiento_ta : ℚ
  cumplimiento_tb : ℚ
  cumplimiento_diario : ℚ
  metros_roc : MetrosRocData
  deriving DecidableEq, Inhabited

/-- One sheet: the cell function from column letter and row number to the
value of that cell. -/
def Hoja : Type := String → ℕ → CellValue

/-- One workbook: its sheet names and, for each sheet name, its cells. -/
structure Workbook where
  sheetnames : List String
  hoja : String → Hoja

/-- Sheets that are not dates, constant HOJAS_EXCLUIDAS. -/
def HOJAS_EXCLUIDAS : List String := ["Datos", "Patios"]

/-- Phase sections with their row ranges, constant SECCIONES_FASES:
label, first equipment row, totals row. -/
def SECCIONES_FASES : List (String × ℕ × ℕ) :=
  [("F12", 6, 9), ("F10", 11, 15), ("F09", 17, 25), ("F11", 27, 31)]

/-- Row of the day totals, constant FILA_TOTAL_METROS. -/
def FILA_TOTAL_METROS : ℕ := 34

/-- Row of the ROC plan line, constant FILA_PLAN_DIARIO_ROC. -/
def FILA_PLAN_DIARIO_ROC : ℕ := 42

/-- Python dict assignment on an association list: overwrite the value at
an existing key in place, otherwise append the new binding at the end. -/
def dictInsert {α : Type} (d : List (String × α)) (k : String) (v : α) :
    List (String × α) :=
  if (List.lookup k d).isSome then
    d.map (fun p => if p.1 = k then (k, v) else p)
  else d ++ [(k, v)]

/-- Fields of the equipment record read at one row, the body of the
constructor call inside _leer_equipo. -/
def equipoEnFila (sheet : Hoja) (fila : ℕ) : EquipoData :=
  { equipo := _safe_str (sheet ("C") fila)
    turno_a := _safe_float (sheet ("D") fila)
    turno_b := _safe_float (sheet ("E") fila)
    total := _safe_float (sheet ("F") fila)
    plan := _safe_float (sheet ("G") fila)
    cumplimiento_ta := _safe_float (sheet ("H") fila)
    cumplimiento_tb := _safe_float (sheet ("I") fila)
    cumplimiento_diario := _safe_float (sheet ("K") fila)
    estado_ta := _safe_str (sheet ("M") fila)
    estado_tb := _safe_str (sheet ("N") fila) }

/-- Embedding of leer_excel._leer_equipo: None when the name cell is empty
or the literal text TOTAL, otherwise the populated equipment record. -/
def _leer_equipo (sheet : Hoja) (fila : ℕ) : Option EquipoData :=
  let nombre := _safe_str (sheet ("C") fila)
  if nombre = "" ∨ nombre = "TOTAL" then none
  else some (equipoEnFila sheet fila)

/-- Embedding of leer_excel._leer_fase: the equipment loop over the rows
from fila_inicio up to but excluding fila_total, appending each produced
record, followed by the reads of the phase totals row. -/
def _leer_fase (sheet : Hoja) (fase_label : String)
    (fila_inicio fila_total : ℕ) : FaseData :=
  let equipos := (List.range' fila_inicio (fila_total - fila_inicio)).foldl
    (fun acc fila =>
      match _leer_equipo sheet fila with
      | some equipo => acc ++ [equipo]
      | none => acc) []
  { fase := fase_label
    equipos := equipos
    total_turno_a := _safe_float (sheet ("D") fila_total)
    total_turno_b := _safe_float (sheet ("E") fila_total)
    total := _safe_float (sheet ("F") fila_total)
    plan := _safe_float (sheet ("G") fila_total)
    cumplimiento_ta := _safe_float (sheet ("H") fila_total)
    cumplimiento_tb := _safe_float (sheet ("I") fila_total)
    cumplimiento_diario := _safe_float (sheet ("K") fila_total) }

/-- Embedding of leer_excel._leer_metros_roc; the fixed rows 38 to 41 are
the values of the FILAS_METROS_ROC dict, row 42 is FILA_PLAN_DIARIO_ROC. -/
def _leer_metros_roc (sheet : Hoja) : MetrosRocData :=
  { fase_9 := _safe_float (sheet ("F") 38)
    fase_10 := _safe_float (sheet ("F") 39)
    fase_11 := _safe_float (sheet ("F") 40)
    fase_12 := _safe_float (sheet ("F") 41)
    plan_diario := _safe_float (sheet ("C") FILA_PLAN_DIARIO_ROC)
    turno_a := _safe_float (sheet ("D") FILA_PLAN_DIARIO_ROC)
    turno_b := _safe_float (sheet ("E") FILA_PLAN_DIARIO_ROC)
    total := _safe_float (sheet ("F") FILA_PLAN_DIARIO_ROC) }

/-- Embedding of leer_excel.leer_dia: build the phase dict from
SECCIONES_FASES, then read the day totals row and the ROC block. -/
def leer_dia (wb : Workbook) (nombre_hoja : String) : DiaData :=
  let sheet := wb.hoja nombre_hoja
  let fases := SECCIONES_FASES.foldl
    (fun acc sec => dictInsert acc sec.1 (_leer_fase sheet sec.1 sec.2.1 sec.2.2)) []
  { fecha := pyStrip nombre_hoja
    fases := fases
    total_turno_a := _safe_float (sheet ("D") FILA_TOTAL_METROS)
    total_turno_b := _safe_float (sheet ("E") FILA_TOTAL_METROS)
    total_metros := _safe_float (sheet ("F") FILA_TOTAL_METROS)
    plan_total := _safe_float (sheet ("G") FILA_TOTAL_METROS)
    cumplimiento_ta := _safe_float (sheet ("H") FILA_TOTAL_METROS)
    cumplimiento_tb := _safe_float (sheet ("I") FILA_TOTAL_METROS)
    cumplimiento_diario := _safe_float (sheet ("K") FILA_TOTAL_METROS)
    metros_roc := _leer_metros_roc sheet }

/-- Result record of leer_excel.cargar_excel. -/
structure CargaExcel where
  dias : List (String × DiaData)
  hojas_fecha : List String
  total_hojas : ℕ
  deriving DecidableEq, Inhabited

/-- Embedding of leer_excel.cargar_excel: keep the sheet names whose
trimmed form is not excluded, read each of them keyed by trimmed name. -/
def cargar_excel (wb : Workbook) : CargaExcel :=
  let hojas_fecha := wb.sheetnames.filter
    (fun name => !(HOJAS_EXCLUIDAS.contains (pyStrip name)))
  let dias := hojas_fecha.foldl
    (fun acc nombre => dictInsert acc (pyStrip nombre) (leer_dia wb nombre)) []
  { dias := dias
    hojas_fecha := hojas_fecha.map (fun h => pyStrip h)
    total_hojas := hojas_fecha.length }

/-- Embedding of leer_excel.obtener_dia: find the first sheet name whose
trimmed form equals the trimmed requested date, read it fully, or return
None when no sheet name matches. -/
def obtener_dia (wb : Workbook) (fecha : String) : Option DiaData :=
  match wb.sheetnames.find? (fun name => pyStrip name == pyStrip fecha) with
  | none => none
  | some nombre_hoja => some (leer_dia wb nombre_hoja)

/-- Events on the workbook handle, for the resource-lifetime claim. -/
inductive EventoWb where
  | abrir : EventoWb
  | cerrar : EventoWb
  deriving DecidableEq

/-- obtener_dia with its handle trace: load_workbook opens the handle,
and each return path of the source closes it first. -/
def obtener_dia_tr (wb : Workbook) (fecha : String) :
    Option DiaData × List EventoWb :=
  let tr : List EventoWb := [EventoWb.abrir]
  match wb.sheetnames.find? (fun name => pyStrip name == pyStrip fecha) with
  | none => (none, tr ++ [EventoWb.cerrar])
  | some nombre_hoja => (some (leer_dia wb nombre_hoja), tr ++ [EventoWb.cerrar])

/-- cargar_excel with its handle trace: open, read every date sheet,
close, return. -/
def cargar_excel_tr (wb : Workbook) : CargaExcel × List EventoWb :=
  let tr : List EventoWb := [EventoWb.abrir]
  (cargar_excel wb, tr ++ [EventoWb.cerrar])

/-- One row of the equipment view of dashboard_csv.py. -/
structure Fila where
  Fecha : String
  Fase : String
  Equipo : String
  Turno_A : ℚ
  Turno_B : ℚ
  Total : ℚ
  Plan : ℚ
  Cumplimiento_TA : ℚ
  Cumplimiento_TB : ℚ
  Cumplimiento_Diario : ℚ
  Estado_TA : String
  Estado_TB : String
  Tipo : String
  deriving DecidableEq, Inhabited

/-- Presentation order of the phase labels in dashboard_csv.dia_a_filas. -/
def ORDEN_FASES : List String := ["F12", "F10", "F09", "F11"]

/-- Equipment row appended by dashboard_csv.dia_a_filas for one equipment
record: compliance fractions become percentages rounded to one decimal,
with a falsy (zero) fraction emitted as 0.0. -/
def filaEquipo (fecha : String) (fase_label : String) (eq : EquipoData) : Fila :=
  { Fecha := fecha
    Fase := fase_label
    Equipo := eq.equipo
    Turno_A := eq.turno_a
    Turno_B := eq.turno_b
    Total := eq.total
    Plan := eq.plan
    Cumplimiento_TA := if eq.cumplimiento_ta ≠ 0 then round1 (eq.cumplimiento_ta * 100) else 0
    Cumplimiento_TB := if eq.cumplimiento_tb ≠ 0 then round1 (eq.cumplimiento_tb * 100) else 0
    Cumplimiento_Diario := if eq.cumplimiento_diario ≠ 0 then round1 (eq.cumplimiento_diario * 100) else 0
    Estado_TA := eq.estado_ta
    Estado_TB := eq.estado_tb
    Tipo := "Equipo" }

/-- Synthetic phase-total row appended by dashboard_csv.dia_a_filas after
the equipment rows of one phase. -/
def filaTotalFase (fecha : String) (fase_label : String) (fase : FaseData) : Fila :=
  { Fecha := fecha
    Fase := fase_label
    Equipo := "TOTAL_FASE"
    Turno_A := fase.total_turno_a
    Turno_B := fase.total_turno_b
    Total := fase.total
    Plan := fase.plan
    Cumplimiento_TA := if fase.cumplimiento_ta ≠ 0 then round1 (fase.cumplimiento_ta * 100) else 0
    Cumplimiento_TB := if fase.cumplimiento_tb ≠ 0 then round1 (fase.cumplimiento_tb * 100) else 0
    Cumplimiento_Diario := if fase.cumplimiento_diario ≠ 0 then round1 (fase.cumplimiento_diario * 100) else 0
    Estado_TA := ""
    Estado_TB := ""
    Tipo := "Total_Fase" }

/-- Synthetic day-total row appended by dashboard_csv.dia_a_filas after
all the phases of one day. -/
def filaTotalDia (dia : DiaData) : Fila :=
  { Fecha := dia.fecha
    Fase := "TODAS"
    Equipo := "TOTAL_DIA"
    Turno_A := dia.total_turno_a
    Turno_B := dia.total_turno_b
    Total := dia.total_metros
    Plan := dia.plan_total
    Cumplimiento_TA := if dia.cumplimiento_ta ≠ 0 then round1 (dia.cumplimiento_ta * 100) else 0
    Cumplimiento_TB := if dia.cumplimiento_tb ≠ 0 then round1 (dia.cumplimiento_tb * 100) else 0
    Cumplimiento_Diario := if dia.cumplimiento_diario ≠ 0 then round1 (dia.cumplimiento_diario * 100) else 0
    Estado_TA := ""
    Estado_TB := ""
    Tipo := "Total_Dia" }

/-- Embedding of dashboard_csv.dia_a_filas: loop over the four phase
labels in presentation order, skip a label missing from the dict, append
one row per equipment record, then the phase-total row; at the end append
the day-total row. -/
def dia_a_filas (dia : DiaData) : List Fila :=
  let filas := ORDEN_FASES.foldl
    (fun filas fase_label =>
      match List.lookup fase_label dia.fases with
      | none => filas
      | some fase =>
        (fase.equipos.foldl
          (fun fs eq => fs ++ [filaEquipo dia.fecha fase_label eq]) filas)
          ++ [filaTotalFase dia.fecha fase_label fase]) []
  filas ++ [filaTotalDia dia]

/-- One row of the ROC view of dashboard_csv.py; the three aggregate-only
columns are absent (none) on the per-phase rows. -/
structure FilaRoc where
  Fecha : String
  Fase : String
  Metros_ROC : ℚ
  Turno_A_ROC : Option ℚ
  Turno_B_ROC : Option ℚ
  Plan_Diario_ROC : Option ℚ
  deriving DecidableEq, Inhabited

/-- Embedding of dashboard_csv.dia_a_filas_roc: four fixed phase rows
then one aggregate row. -/
def dia_a_filas_roc (dia : DiaData) : List FilaRoc :=
  let roc := dia.metros_roc
  let filas := ([("F09", roc.fase_9), ("F10", roc.fase_10),
                 ("F11", roc.fase_11), ("F12", roc.fase_12)]).foldl
    (fun fs p => fs ++ [{ Fecha := dia.fecha, Fase := p.1, Metros_ROC := p.2,
                          Turno_A_ROC := none, Turno_B_ROC := none,
                          Plan_Diario_ROC := none }]) []
  filas ++ [{ Fecha := dia.fecha, Fase := "TOTAL_ROC", Metros_ROC := roc.total,
              Turno_A_ROC := some roc.turno_a, Turno_B_ROC := some roc.turno_b,
              Plan_Diario_ROC := some roc.plan_diario }]

/-- One row of the daily-summary view of dashboard_csv.py.  The source
builds a dict whose keys are fixed; the percent sign of the source column
names is rendered as pct. -/
structure FilaResumen where
  Fecha : String
  Total_Turno_A : ℚ
  Total_Turno_B : ℚ
  Total_Metros : ℚ
  Plan_Total : ℚ
  Cumplimiento_Diario_pct : ℚ
  ROC_Total : ℚ
  ROC_Plan : ℚ
  F09_Total : ℚ
  F09_Plan : ℚ
  F09_Cump_pct : ℚ
  F10_Total : ℚ
  F10_Plan : ℚ
  F10_Cump_pct : ℚ
  F11_Total : ℚ
  F11_Plan : ℚ
  F11_Cump_pct : ℚ
  F12_Total : ℚ
  F12_Plan : ℚ
  F12_Cump_pct : ℚ
  deriving DecidableEq, Inhabited

/-- Phase total column of the daily summary: the some branch of the
per-phase loop of exportar_resumen_diario_csv, defaulting to 0.0 when the
phase is absent from the dict of the day. -/
def resumenFaseTotal (dia : DiaData) (fase_label : String) : ℚ :=
  match List.lookup fase_label dia.fases with
  | some fase => fase.total
  | none => 0

/-- Phase plan column of the daily summary, defaulting like the total. -/
def resumenFasePlan (dia : DiaData) (fase_label : String) : ℚ :=
  match List.lookup fase_label dia.fases with
  | some fase => fase.plan
  | none => 0

/-- Phase compliance column of the daily summary, defaulting like the
total and rescaled to a rounded percentage when present. -/
def resumenFaseCump (dia : DiaData) (fase_label : String) : ℚ :=
  match List.lookup fase_label dia.fases with
  | some fase =>
    if fase.cumplimiento_diario ≠ 0 then round1 (fase.cumplimiento_diario * 100) else 0
  | none => 0

/-- Row built for one day by dashboard_csv.exportar_resumen_diario_csv;
the per-phase loop over F09, F10, F11, F12 is unrolled into the fixed
fields of the record. -/
def filaResumen (dia : DiaData) : FilaResumen :=
  { Fecha := dia.fecha
    Total_Turno_A := dia.total_turno_a
    Total_Turno_B := dia.total_turno_b
    Total_Metros := dia.total_metros
    Plan_Total := dia.plan_total
    Cumplimiento_Diario_pct :=
      if dia.cumplimiento_diario ≠ 0 then round1 (dia.cumplimiento_diario * 100) else 0
    ROC_Total := dia.metros_roc.total
    ROC_Plan := dia.metros_roc.plan_diario
    F09_Total := resumenFaseTotal dia ("F09")
    F09_Plan := resumenFasePlan dia ("F09")
    F09_Cump_pct := resumenFaseCump dia ("F09")
    F10_Total := resumenFaseTotal dia ("F10")
    F10_Plan := resumenFasePlan dia ("F10")
    F10_Cump_pct := resumenFaseCump dia ("F10")
    F11_Total := resumenFaseTotal dia ("F11")
    F11_Plan := resumenFasePlan dia ("F11")
    F11_Cump_pct := resumenFaseCump dia ("F11")
    F12_Total := resumenFaseTotal dia ("F12")
    F12_Plan := resumenFasePlan dia ("F12")
    F12_Cump_pct := resumenFaseCump dia ("F12") }

/-- The keys of the day dict in ascending order: the Python expression
sorted on the dict keys, modelled by a stable sort under the string
order (stability is immaterial since dict keys are distinct). -/
def clavesOrdenadas {α : Type} (dias : List (String × α)) : List String :=
  List.insertionSort (fun a b => a ≤ b) (dias.map Prod.fst)

/-- Embedding of dashboard_csv.exportar_metros_csv: concatenate the
equipment-view rows of each day in ascending key order; on an empty row
list return None (no file), otherwise the file name and its rows. -/
def exportar_metros_csv (dias : List (String × DiaData)) (output : String) :
    Option (String × List Fila) :=
  let archivo := output ++ ".csv"
  let todas_filas := (clavesOrdenadas dias).foldl
    (fun acc fecha =>
      acc ++ (match List.lookup fecha dias with
              | some dia => dia_a_filas dia
              | none => [])) []
  if todas_filas.isEmpty then none else some (archivo, todas_filas)

/-- Embedding of dashboard_csv.exportar_roc_csv, same shape as the
equipment export over the ROC rows. -/
def exportar_roc_csv (dias : List (String × DiaData)) (output : String) :
    Option (String × List FilaRoc) :=
  let archivo := output ++ ".csv"
  let todas_filas := (clavesOrdenadas dias).foldl
    (fun acc fecha =>
      acc ++ (match List.lookup fecha dias with
              | some dia => dia_a_filas_roc dia
              | none => [])) []
  if todas_filas.isEmpty then none else some (archivo, todas_filas)

/-- Embedding of dashboard_csv.exportar_resumen_diario_csv: one summary
row per day in ascending key order. -/
def exportar_resumen_diario_csv (dias : List (String × DiaData)) (output : String) :
    Option (String × List FilaResumen) :=
  let archivo := output ++ ".csv"
  let filas := (clavesOrdenadas dias).foldl
    (fun acc fecha =>
      acc ++ (match List.lookup fecha dias with
              | some dia => [filaResumen dia]
              | none => [])) []
  if filas.isEmpty then none else some (archivo, filas)

/-- The date-token loop of dashboard_csv.main: build the day dict from
the tokens that match a sheet, and the list of per-token diagnostics for
the tokens that match none. -/
def procesar_fechas (wb : Workbook) (fechas : List String) :
    List (String × DiaData) × List String :=
  fechas.foldl
    (fun acc fecha =>
      match obtener_dia wb fecha with
      | some dia => (dictInsert acc.1 fecha dia, acc.2)
      | none => (acc.1, acc.2 ++ [fecha])) ([], [])

/-- Exit code of dashboard_csv.main on the date-token path: 1 when the
resulting day dict is empty, 0 otherwise (the exports never raise). -/
def main_exit_fechas (wb : Workbook) (fechas : List String) : ℕ :=
  if (procesar_fechas wb fechas).1.isEmpty then 1 else 0

/-! ## Helper lemmas -/

/-- A left fold whose step appends a block to the accumulator equals the
initial list followed by the concatenation of all the blocks. -/
theorem foldl_append_of_step {α β : Type} (f : List β → α → List β) (g : α → List β)
    (hf : ∀ acc a, f acc a = acc ++ g a) :
    ∀ (l : List α) (init : List β), l.foldl f init = init ++ l.flatMap g := by
  intro l
  induction l with
  | nil => intro init; simp
  | cons a t ih =>
    intro init
    rw [List.foldl_cons, hf, ih]
    simp [List.append_assoc]

/-- Concatenating singleton blocks is mapping. -/
theorem flatMap_singleton_eq_map {α β : Type} (g : α → β) (l : List α) :
    (l.flatMap fun a => [g a]) = l.map g := by
  induction l with
  | nil => rfl
  | cons a t ih => simp [ih]

/-- Looking up a key that occurs among the keys of an association list
succeeds. -/
theorem lookup_isSome_of_mem {α : Type} (k : String) :
    ∀ l : List (String × α), k ∈ l.map Prod.fst → (List.lookup k l).isSome := by
  intro l
  induction l with
  | nil => intro hk; simp at hk
  | cons p t ih =>
    intro hk
    obtain ⟨k1, v⟩ := p
    by_cases h : k = k1
    · simp [List.lookup, h]
    · have hmem : k ∈ t.map Prod.fst := by
        simp only [List.map_cons, List.mem_cons] at hk
        rcases hk with h1 | h1
        · exact absurd h1 h
        · exact h1
      have hbeq : (k == k1) = false := by simpa using h
      simp [List.lookup, hbeq, ih hmem]

/-! ## Claim C1 -/

/-- C1: the numeric coercion _safe_float yields exactly 0.0 on a missing
cell (None) and on a cell whose value does not parse as a number, and the
parsed numeric value otherwise; being a total function of the cell value
it never raises. -/
theorem safe_float_spec :
    (_safe_float CellValue.nulo = 0) ∧
    (∀ s : String, _safe_float (CellValue.texto s none) = 0) ∧
    (∀ q : ℚ, _safe_float (CellValue.numero q) = q) ∧
    (∀ (s : String) (q : ℚ), _safe_float (CellValue.texto s (some q)) = q) :=
  ⟨rfl, fun _ => rfl, fun _ => rfl, fun _ _ => rfl⟩

/-! ## Claim C2 -/

/-- The block contributed to the equipment list by one row: empty when
the row is skipped, one record otherwise. -/
theorem flatMap_leer_equipo (sheet : Hoja) (rows : List ℕ) :
    rows.flatMap (fun fila => (_leer_equipo sheet fila).toList) =
      (rows.filter
        (fun fila => !(_safe_str (sheet ("C") fila) == "" ||
                       _safe_str (sheet ("C") fila) == "TOTAL"))).map
        (equipoEnFila sheet) := by
  induction rows with
  | nil => rfl
  | cons fila t ih =>
    rw [List.flatMap_cons, List.filter_cons, ih]
    by_cases h : _safe_str (sheet ("C") fila) = "" ∨ _safe_str (sheet ("C") fila) = "TOTAL"
    · have hhead : (_leer_equipo sheet fila).toList = [] := by
        simp [_leer_equipo, h]
      have hcond : (!(_safe_str (sheet ("C") fila) == "" ||
          _safe_str (sheet ("C") fila) == "TOTAL")) = false := by
        rcases h with h | h <;> simp [h]
      rw [hhead, hcond]
      simp
    · have hhead : (_leer_equipo sheet fila).toList = [equipoEnFila sheet fila] := by
        simp [_leer_equipo, h]
      push_neg at h
      have hcond : (!(_safe_str (sheet ("C") fila) == "" ||
          _safe_str (sheet ("C") fila) == "TOTAL")) = true := by
        simp only [Bool.not_eq_true', Bool.or_eq_false_iff, beq_eq_false_iff_ne]
        exact ⟨h.1, h.2⟩
      rw [hhead, hcond]
      simp

/-- C2: reading a phase iterates exactly the rows from the first
equipment row up to but excluding the totals row; a row contributes an
equipment record exactly when its coerced, trimmed name cell is non-empty
and differs from the literal text TOTAL; the records appear in ascending
row order (the filtered row range keeps its ascending order). -/
theorem leer_fase_equipos (sheet : Hoja) (fase_label : String)
    (fila_inicio fila_total : ℕ) :
    (_leer_fase sheet fase_label fila_inicio fila_total).equipos =
      ((List.range' fila_inicio (fila_total - fila_inicio)).filter
        (fun fila => !(_safe_str (sheet ("C") fila) == "" ||
                       _safe_str (sheet ("C") fila) == "TOTAL"))).map
        (equipoEnFila sheet) := by
  have hstep : ∀ (acc : List EquipoData) (fila : ℕ),
      (match _leer_equipo sheet fila with
        | some equipo => acc ++ [equipo]
        | none => acc) = acc ++ (_leer_equipo sheet fila).toList := by
    intro acc fila
    cases _leer_equipo sheet fila <;> simp
  have h1 : (_leer_fase sheet fase_label fila_inicio fila_total).equipos =
      (List.range' fila_inicio (fila_total - fila_inicio)).foldl
        (fun acc fila =>
          match _leer_equipo sheet fila with
          | some equipo => acc ++ [equipo]
          | none => acc) [] := rfl
  rw [h1, foldl_append_of_step _ (fun fila => (_leer_equipo sheet fila).toList) hstep,
    List.nil_append, flatMap_leer_equipo]

/-! ## Claim C3 -/

/-- Workbook with a single sheet whose only populated cell is the day
total (row 34, column F, value 100); every phase totals cell is empty. -/
def wbC3 : Workbook :=
  { sheetnames := ["01-01"]
    hoja := fun _ col fila =>
      if col = "F" ∧ fila = 34 then CellValue.numero 100 else CellValue.nulo }

/-- Sum of the phase totals of a day: the recomputation that the reader
does not perform (definition following the words of the claim, for
comparison). -/
def suma_totales_fases (dia : DiaData) : ℚ :=
  (dia.fases.map (fun p => p.2.total)).sum

/-- C3: the day-level total-meters field equals the coerced value of the
fixed day-total cell (row 34, column F) verbatim, for every workbook and
sheet; on a workbook whose phase totals are all empty while that cell
holds 100 the field is still 100, which differs from the sum of the four
phase totals, hence no recomputation happens. -/
theorem total_metros_verbatim :
    (∀ (wb : Workbook) (nombre_hoja : String),
      (leer_dia wb nombre_hoja).total_metros =
        _safe_float (wb.hoja nombre_hoja ("F") 34)) ∧
    ((leer_dia wbC3 ("01-01")).total_metros = 100 ∧
      suma_totales_fases (leer_dia wbC3 ("01-01")) = 0 ∧
      (leer_dia wbC3 ("01-01")).total_metros ≠
        suma_totales_fases (leer_dia wbC3 ("01-01"))) := by
  have hm : (leer_dia wbC3 ("01-01")).fases.map (fun p => p.2.total) =
      [0, 0, 0, 0] := rfl
  have hs : suma_totales_fases (leer_dia wbC3 ("01-01")) = 0 := by
    rw [suma_totales_fases, hm]; norm_num
  have ht : (leer_dia wbC3 ("01-01")).total_metros = 100 := rfl
  exact ⟨fun wb n => rfl, ht, hs, by rw [hs, ht]; norm_num⟩

/-! ## Claim C4 -/

/-- Spec-shaped equipment view of one day: for each phase label in the
presentation order, the equipment rows then exactly one phase-total row;
after all the phases exactly one day-total row. -/
def filasPresentacion (dia : DiaData) : List Fila :=
  (ORDEN_FASES.flatMap
    (fun fase_label =>
      match List.lookup fase_label dia.fases with
      | none => []
      | some fase =>
        fase.equipos.map (filaEquipo dia.fecha fase_label) ++
          [filaTotalFase dia.fecha fase_label fase])) ++
    [filaTotalDia dia]

/-- The imperative row building of dia_a_filas equals its spec shape. -/
theorem dia_a_filas_eq (dia : DiaData) : dia_a_filas dia = filasPresentacion dia := by
  have hstep : ∀ (filas : List Fila) (fase_label : String),
      (match List.lookup fase_label dia.fases with
        | none => filas
        | some fase =>
          (fase.equipos.foldl
            (fun fs eq => fs ++ [filaEquipo dia.fecha fase_label eq]) filas) ++
            [filaTotalFase dia.fecha fase_label fase]) =
        filas ++ (match List.lookup fase_label dia.fases with
          | none => []
          | some fase =>
            fase.equipos.map (filaEquipo dia.fecha fase_label) ++
              [filaTotalFase dia.fecha fase_label fase]) := by
    intro filas fase_label
    cases h : List.lookup fase_label dia.fases with
    | none => simp
    | some fase =>
      have hin := foldl_append_of_step
        (fun fs eq => fs ++ [filaEquipo dia.fecha fase_label eq])
        (fun eq => [filaEquipo dia.fecha fase_label eq]) (fun _ _ => rfl)
        fase.equipos filas
      simp only [hin, flatMap_singleton_eq_map]
      simp [List.append_assoc]
  have h1 : dia_a_filas dia =
      (ORDEN_FASES.foldl
        (fun filas fase_label =>
          match List.lookup fase_label dia.fases with
          | none => filas
          | some fase =>
            (fase.equipos.foldl
              (fun fs eq => fs ++ [filaEquipo dia.fecha fase_label eq]) filas)
              ++ [filaTotalFase dia.fecha fase_label fase]) []) ++
        [filaTotalDia dia] := rfl
  rw [h1, foldl_append_of_step _ _ hstep, List.nil_append, filasPresentacion]

/-- Spec-shaped full equipment view: the rows of each day, days taken in
ascending key order. -/
def filasMetrosOrd (dias : List (String × DiaData)) : List Fila :=
  (clavesOrdenadas dias).flatMap
    (fun fecha => match List.lookup fecha dias with
      | some dia => filasPresentacion dia
      | none => [])

/-- The equipment export is the if-guarded spec shape: None exactly on an
empty row list, otherwise the file name and the concatenated rows. -/
theorem exportar_metros_csv_eq (dias : List (String × DiaData)) (output : String) :
    exportar_metros_csv dias output =
      (if (filasMetrosOrd dias).isEmpty then none
       else some (output ++ ".csv", filasMetrosOrd dias)) := by
  have h2 : exportar_metros_csv dias output =
      (if ((clavesOrdenadas dias).foldl
          (fun acc fecha =>
            acc ++ (match List.lookup fecha dias with
                    | some dia => dia_a_filas dia
                    | none => [])) []).isEmpty then none
       else some (output ++ ".csv", (clavesOrdenadas dias).foldl
          (fun acc fecha =>
            acc ++ (match List.lookup fecha dias with
                    | some dia => dia_a_filas dia
                    | none => [])) [])) := rfl
  have h3 : (clavesOrdenadas dias).foldl
      (fun acc fecha =>
        acc ++ (match List.lookup fecha dias with
                | some dia => dia_a_filas dia
                | none => [])) [] = filasMetrosOrd dias := by
    rw [foldl_append_of_step _
      (fun fecha => match List.lookup fecha dias with
        | some dia => dia_a_filas dia
        | none => []) (fun _ _ => rfl), List.nil_append]
    simp only [dia_a_filas_eq]
    rfl
  rw [h2, h3]

/-- First equipment record of the round-trip scenario: total 10, plan 12. -/
def eqC4a : EquipoData :=
  { equipo := "PF03", turno_a := 4, turno_b := 6, total := 10, plan := 12,
    cumplimiento_ta := 0, cumplimiento_tb := 0, cumplimiento_diario := 0,
    estado_ta := "", estado_tb := "" }

/-- Second equipment record of the round-trip scenario: total 15, plan 12. -/
def eqC4b : EquipoData :=
  { eqC4a with equipo := "PF07", turno_a := 7, turno_b := 8, total := 15 }

/-- Scenario phase F09: two equipment records and a read phase total of
25 with plan 24 (values read, not summed). -/
def faseC4 : FaseData :=
  { fase := "F09", equipos := [eqC4a, eqC4b], total_turno_a := 11,
    total_turno_b := 14, total := 25, plan := 24, cumplimiento_ta := 0,
    cumplimiento_tb := 0, cumplimiento_diario := 0 }

/-- Scenario day holding only phase F09. -/
def diaC4 : DiaData :=
  { fecha := "15-01", fases := [("F09", faseC4)], total_turno_a := 11,
    total_turno_b := 14, total_metros := 25, plan_total := 24,
    cumplimiento_ta := 0, cumplimiento_tb := 0, cumplimiento_diario := 0,
    metros_roc := default }

/-- C4: the equipment view visits days in ascending key order (the key
list it iterates is sorted and a permutation of the day keys); within a
day it visits the phase labels in the fixed order F12, F10, F09, F11,
emitting one row per equipment record followed by exactly one synthetic
phase-total row carrying the read totals, and after all phases exactly
one synthetic day-total row; a day whose phase F09 holds two equipment
records and a read phase total of 25.0 yields exactly 2 equipment rows
plus 1 Total_Fase row for F09 whose Total field is 25.0. -/
theorem vista_equipos_estructura :
    (∀ dia : DiaData, dia_a_filas dia = filasPresentacion dia) ∧
    (∀ (dias : List (String × DiaData)) (output : String),
      exportar_metros_csv dias output =
        (if (filasMetrosOrd dias).isEmpty then none
         else some (output ++ ".csv", filasMetrosOrd dias))) ∧
    (∀ dias : List (String × DiaData),
      List.Sorted (fun a b => a ≤ b) (clavesOrdenadas dias) ∧
      (clavesOrdenadas dias).Perm (dias.map Prod.fst)) ∧
    ((dia_a_filas diaC4).filter
      (fun r => r.Fase == "F09" && r.Tipo == "Equipo")).length = 2 ∧
    ((dia_a_filas diaC4).filter
      (fun r => r.Fase == "F09" && r.Tipo == "Total_Fase")).map Fila.Total = [25] := by
  refine ⟨dia_a_filas_eq, exportar_metros_csv_eq, ?_, ?_, ?_⟩
  · intro dias
    exact ⟨List.sorted_insertionSort _ _, List.perm_insertionSort _ _⟩
  · rfl
  · rfl

/-! ## Claim C5 -/

/-- Scenario equipment record whose daily compliance fraction is 0.873. -/
def eqC5 : EquipoData :=
  { equipo := "PF21", turno_a := 0, turno_b := 0, total := 0, plan := 0,
    cumplimiento_ta := 0, cumplimiento_tb := 0, cumplimiento_diario := 873 / 1000,
    estado_ta := "", estado_tb := "" }

/-- Scenario phase F12 holding that record, with zero (absent) compliance
on its totals row. -/
def faseC5 : FaseData :=
  { fase := "F12", equipos := [eqC5], total_turno_a := 0, total_turno_b := 0,
    total := 0, plan := 0, cumplimiento_ta := 0, cumplimiento_tb := 0,
    cumplimiento_diario := 0 }

/-- Scenario day holding only phase F12, all other compliances zero. -/
def diaC5 : DiaData :=
  { fecha := "16-01", fases := [("F12", faseC5)], total_turno_a := 0,
    total_turno_b := 0, total_metros := 0, plan_total := 0,
    cumplimiento_ta := 0, cumplimiento_tb := 0, cumplimiento_diario := 0,
    metros_roc := default }

/-- C5: every row of the equipment view comes from one source record of
the day (an equipment record of a present phase, the totals of a present
phase, or the day totals), and each of its three compliance values equals
that same source record's fraction times 100 rounded to one decimal place
when the fraction is nonzero, and exactly 0 when the fraction is zero or
absent (never blank: the column always holds a number); on the concrete
day the fraction 0.873 is exported as 87.3 and the zero fractions of the
same day as 0.0. -/
theorem cumplimientos_exportados (dia : DiaData) (r : Fila)
    (hr : r ∈ dia_a_filas dia) :
    ((∃ fase_label fase eq, List.lookup fase_label dia.fases = some fase ∧
        eq ∈ fase.equipos ∧ r = filaEquipo dia.fecha fase_label eq ∧
        r.Cumplimiento_TA =
          (if eq.cumplimiento_ta ≠ 0 then round1 (eq.cumplimiento_ta * 100) else 0) ∧
        r.Cumplimiento_TB =
          (if eq.cumplimiento_tb ≠ 0 then round1 (eq.cumplimiento_tb * 100) else 0) ∧
        r.Cumplimiento_Diario =
          (if eq.cumplimiento_diario ≠ 0 then round1 (eq.cumplimiento_diario * 100) else 0)) ∨
     (∃ fase_label fase, List.lookup fase_label dia.fases = some fase ∧
        r = filaTotalFase dia.fecha fase_label fase ∧
        r.Cumplimiento_TA =
          (if fase.cumplimiento_ta ≠ 0 then round1 (fase.cumplimiento_ta * 100) else 0) ∧
        r.Cumplimiento_TB =
          (if fase.cumplimiento_tb ≠ 0 then round1 (fase.cumplimiento_tb * 100) else 0) ∧
        r.Cumplimiento_Diario =
          (if fase.cumplimiento_diario ≠ 0 then round1 (fase.cumplimiento_diario * 100) else 0)) ∨
     (r = filaTotalDia dia ∧
        r.Cumplimiento_TA =
          (if dia.cumplimiento_ta ≠ 0 then round1 (dia.cumplimiento_ta * 100) else 0) ∧
        r.Cumplimiento_TB =
          (if dia.cumplimiento_tb ≠ 0 then round1 (dia.cumplimiento_tb * 100) else 0) ∧
        r.Cumplimiento_Diario =
          (if dia.cumplimiento_diario ≠ 0 then round1 (dia.cumplimiento_diario * 100) else 0))) ∧
    (dia_a_filas diaC5).map Fila.Cumplimiento_Diario = [873 / 10, 0, 0] := by
  constructor
  · rw [dia_a_filas_eq, filasPresentacion] at hr
    rcases List.mem_append.mp hr with h | h
    · rcases List.mem_flatMap.mp h with ⟨lab, hlab, hin⟩
      cases hcase : List.lookup lab dia.fases with
      | none => rw [hcase] at hin; simp at hin
      | some fase =>
        rw [hcase] at hin
        rcases List.mem_append.mp hin with h2 | h2
        · rcases List.mem_map.mp h2 with ⟨e, he, hre⟩
          subst hre
          exact Or.inl ⟨lab, fase, e, hcase, he, rfl, rfl, rfl, rfl⟩
        · have h3 : r = filaTotalFase dia.fecha lab fase := by simpa using h2
          subst h3
          exact Or.inr (Or.inl ⟨lab, fase, hcase, rfl, rfl, rfl, rfl⟩)
    · have h3 : r = filaTotalDia dia := by simpa using h
      subst h3
      exact Or.inr (Or.inr ⟨rfl, rfl, rfl, rfl⟩)
  · have hlist : dia_a_filas diaC5 =
        [filaEquipo ("16-01") ("F12") eqC5,
         filaTotalFase ("16-01") ("F12") faseC5, filaTotalDia diaC5] := rfl
    rw [hlist]
    simp only [List.map_cons, List.map_nil, filaEquipo, filaTotalFase,
      filaTotalDia, eqC5, faseC5, diaC5]
    norm_num [round1, roundHalfEven]

/-- Closed instance of the claim C5 theorem at the scenario day and its
first row: the membership hypothesis discharged at the row of the 0.873
record, yielding the concrete exported percentages. -/
theorem cumplimientos_exportados_witness :
    (filaEquipo ("16-01") ("F12") eqC5 ∈ dia_a_filas diaC5) ∧
    (dia_a_filas diaC5).map Fila.Cumplimiento_Diario = [873 / 10, 0, 0] := by
  have hmem : filaEquipo ("16-01") ("F12") eqC5 ∈ dia_a_filas diaC5 := by
    have hlist : dia_a_filas diaC5 =
        [filaEquipo ("16-01") ("F12") eqC5,
         filaTotalFase ("16-01") ("F12") faseC5, filaTotalDia diaC5] := rfl
    rw [hlist]
    exact List.mem_cons_self _ _
  exact ⟨hmem, (cumplimientos_exportados diaC5 _ hmem).2⟩

/-! ## Claim C6 -/

/-- C6: the single-day accessor returns None exactly when no sheet name
matches the requested date after trimming; on success its value is the
full whole-sheet read of a matching sheet, so no other value is ever
returned. -/
theorem obtener_dia_spec (wb : Workbook) (fecha : String) :
    (obtener_dia wb fecha = none ↔
      ∀ name ∈ wb.sheetnames, pyStrip name ≠ pyStrip fecha) ∧
    (∀ d : DiaData, obtener_dia wb fecha = some d →
      ∃ name ∈ wb.sheetnames, pyStrip name = pyStrip fecha ∧ d = leer_dia wb name) := by
  constructor
  · constructor
    · intro h name hmem
      cases hf : wb.sheetnames.find? (fun name => pyStrip name == pyStrip fecha) with
      | none =>
        have hnone := List.find?_eq_none.mp hf name hmem
        simpa using hnone
      | some x =>
        rw [obtener_dia, hf] at h
        simp at h
    · intro h
      rw [obtener_dia]
      cases hf : wb.sheetnames.find? (fun name => pyStrip name == pyStrip fecha) with
      | none => rfl
      | some x =>
        have hx := List.find?_some hf
        have hmem := List.mem_of_find?_eq_some hf
        exact absurd (by simpa using hx) (h x hmem)
  · intro d hd
    rw [obtener_dia] at hd
    cases hf : wb.sheetnames.find? (fun name => pyStrip name == pyStrip fecha) with
    | none => rw [hf] at hd; cases hd
    | some x =>
      rw [hf] at hd
      simp only [Option.some.injEq] at hd
      have hx := List.find?_some hf
      have hmem := List.mem_of_find?_eq_some hf
      exact ⟨x, hmem, by simpa using hx, hd.symm⟩

/-- Workbook for the C6 witness: one excluded sheet and one date sheet
whose stored name carries a trailing blank. -/
def wbC6 : Workbook :=
  { sheetnames := ["Datos", "15-01 "]
    hoja := fun _ _ _ => CellValue.nulo }

/-- Closed instance of the claim C6 theorem: the success path of the
accessor on the concrete workbook returns the full read of the matching
sheet. -/
theorem obtener_dia_spec_witness :
    ∃ name ∈ wbC6.sheetnames, pyStrip name = pyStrip ("15-01") ∧
      leer_dia wbC6 ("15-01 ") = leer_dia wbC6 name :=
  (obtener_dia_spec wbC6 ("15-01")).2 (leer_dia wbC6 ("15-01 ")) rfl

/-! ## Claim C7 -/

/-- C7: the traced accessor and the traced bulk loader open the workbook
handle once and close it before every return, also on the
lookup-failure path; their returned values agree with the untraced
embeddings, so the traces belong to the functions the claims are about. -/
theorem handle_cerrado :
    (∀ (wb : Workbook) (fecha : String),
      (obtener_dia_tr wb fecha).2 = [EventoWb.abrir, EventoWb.cerrar] ∧
      (obtener_dia_tr wb fecha).1 = obtener_dia wb fecha) ∧
    (∀ wb : Workbook,
      (cargar_excel_tr wb).2 = [EventoWb.abrir, EventoWb.cerrar] ∧
      (cargar_excel_tr wb).1 = cargar_excel wb) := by
  constructor
  · intro wb fecha
    cases hf : wb.sheetnames.find? (fun name => pyStrip name == pyStrip fecha) with
    | none => simp [obtener_dia_tr, obtener_dia, hf]
    | some x => simp [obtener_dia_tr, obtener_dia, hf]
  · intro wb
    exact ⟨rfl, rfl⟩

/-! ## Claim C8 -/

/-- Spec-shaped ROC view: the ROC rows of each day, days in ascending key
order. -/
def filasRocOrd (dias : List (String × DiaData)) : List FilaRoc :=
  (clavesOrdenadas dias).flatMap
    (fun fecha => match List.lookup fecha dias with
      | some dia => dia_a_filas_roc dia
      | none => [])

/-- Spec-shaped daily summary: one row per day, days in ascending key
order. -/
def filasResumenOrd (dias : List (String × DiaData)) : List FilaResumen :=
  (clavesOrdenadas dias).flatMap
    (fun fecha => match List.lookup fecha dias with
      | some dia => [filaResumen dia]
      | none => [])

/-- The ROC export is the if-guarded spec shape. -/
theorem exportar_roc_csv_eq (dias : List (String × DiaData)) (output : String) :
    exportar_roc_csv dias output =
      (if (filasRocOrd dias).isEmpty then none
       else some (output ++ ".csv", filasRocOrd dias)) := by
  have h2 : exportar_roc_csv dias output =
      (if ((clavesOrdenadas dias).foldl
          (fun acc fecha =>
            acc ++ (match List.lookup fecha dias with
                    | some dia => dia_a_filas_roc dia
                    | none => [])) []).isEmpty then none
       else some (output ++ ".csv", (clavesOrdenadas dias).foldl
          (fun acc fecha =>
            acc ++ (match List.lookup fecha dias with
                    | some dia => dia_a_filas_roc dia
                    | none => [])) [])) := rfl
  have h3 : (clavesOrdenadas dias).foldl
      (fun acc fecha =>
        acc ++ (match List.lookup fecha dias with
                | some dia => dia_a_filas_roc dia
                | none => [])) [] = filasRocOrd dias := by
    rw [foldl_append_of_step _
      (fun fecha => match List.lookup fecha dias with
        | some dia => dia_a_filas_roc dia
        | none => []) (fun _ _ => rfl), List.nil_append, filasRocOrd]
  rw [h2, h3]

/-- The daily-summary export is the if-guarded spec shape. -/
theorem exportar_resumen_csv_eq (dias : List (String × DiaData)) (output : String) :
    exportar_resumen_diario_csv dias output =
      (if (filasResumenOrd dias).isEmpty then none
       else some (output ++ ".csv", filasResumenOrd dias)) := by
  have h2 : exportar_resumen_diario_csv dias output =
      (if ((clavesOrdenadas dias).foldl
          (fun acc fecha =>
            acc ++ (match List.lookup fecha dias with
                    | some dia => [filaResumen dia]
                    | none => [])) []).isEmpty then none
       else some (output ++ ".csv", (clavesOrdenadas dias).foldl
          (fun acc fecha =>
            acc ++ (match List.lookup fecha dias with
                    | some dia => [filaResumen dia]
                    | none => [])) [])) := rfl
  have h3 : (clavesOrdenadas dias).foldl
      (fun acc fecha =>
        acc ++ (match List.lookup fecha dias with
                | some dia => [filaResumen dia]
                | none => [])) [] = filasResumenOrd dias := by
    rw [foldl_append_of_step _
      (fun fecha => match List.lookup fecha dias with
        | some dia => [filaResumen dia]
        | none => []) (fun _ _ => rfl), List.nil_append, filasResumenOrd]
  rw [h2, h3]

/-- The equipment view of a day always holds at least its day-total row. -/
theorem filasPresentacion_ne_nil (dia : DiaData) : filasPresentacion dia ≠ [] := by
  simp [filasPresentacion]

/-- The ROC view of a day always holds its five rows. -/
theorem dia_a_filas_roc_ne_nil (dia : DiaData) : dia_a_filas_roc dia ≠ [] := by
  simp [dia_a_filas_roc]

/-- A per-day flatMap over the sorted keys of a non-empty day collection
is non-empty whenever every day contributes a non-empty block. -/
theorem flatMapDias_ne_nil {β : Type} (dias : List (String × DiaData))
    (g : DiaData → List β) (hg : ∀ d, g d ≠ []) (hne : dias ≠ []) :
    (clavesOrdenadas dias).flatMap
      (fun fecha => match List.lookup fecha dias with
        | some dia => g dia
        | none => []) ≠ [] := by
  have hkeys : dias.map Prod.fst ≠ [] := fun h0 => hne (List.map_eq_nil_iff.mp h0)
  have hperm : (clavesOrdenadas dias).Perm (dias.map Prod.fst) :=
    List.perm_insertionSort (fun a b => a ≤ b) (dias.map Prod.fst)
  cases hc : clavesOrdenadas dias with
  | nil =>
    exfalso
    rw [hc] at hperm
    exact hkeys hperm.symm.eq_nil
  | cons k t =>
    have hkmem : k ∈ dias.map Prod.fst := by
      refine hperm.subset ?_
      rw [hc]
      exact List.mem_cons_self _ _
    rw [List.flatMap_cons]
    cases hl : List.lookup k dias with
    | none =>
      have hsome := lookup_isSome_of_mem k dias hkmem
      rw [hl] at hsome
      simp at hsome
    | some d =>
      intro h0
      exact hg d (List.append_eq_nil.mp h0).1

/-- C8: exporting an empty day collection creates no file: each of the
three exports returns None (as total functions they raise nothing); and
for every collection each export returns None exactly when the
collection is empty, so the empty-result branch of one export never
suppresses the other exports of a non-empty collection — the three run
independently on the same collection. -/
theorem exportar_vacio :
    ((∀ output : String, exportar_metros_csv [] output = none) ∧
     (∀ output : String, exportar_roc_csv [] output = none) ∧
     (∀ output : String, exportar_resumen_diario_csv [] output = none)) ∧
    (∀ (dias : List (String × DiaData)) (output : String),
      (exportar_metros_csv dias output = none ↔ dias = []) ∧
      (exportar_roc_csv dias output = none ↔ dias = []) ∧
      (exportar_resumen_diario_csv dias output = none ↔ dias = [])) := by
  have hmetros : ∀ (dias : List (String × DiaData)) (output : String),
      exportar_metros_csv dias output = none ↔ dias = [] := by
    intro dias output
    rw [exportar_metros_csv_eq]
    constructor
    · intro h
      by_contra hne
      have haux := flatMapDias_ne_nil dias filasPresentacion
        filasPresentacion_ne_nil hne
      cases hE : (filasMetrosOrd dias).isEmpty with
      | true =>
        have hnil : filasMetrosOrd dias = [] := by
          rwa [List.isEmpty_iff] at hE
        exact haux hnil
      | false =>
        rw [hE] at h
        simp at h
    · intro h
      subst h
      rfl
  have hroc : ∀ (dias : List (String × DiaData)) (output : String),
      exportar_roc_csv dias output = none ↔ dias = [] := by
    intro dias output
    rw [exportar_roc_csv_eq]
    constructor
    · intro h
      by_contra hne
      have haux := flatMapDias_ne_nil dias dia_a_filas_roc
        dia_a_filas_roc_ne_nil hne
      cases hE : (filasRocOrd dias).isEmpty with
      | true =>
        have hnil : filasRocOrd dias = [] := by
          rwa [List.isEmpty_iff] at hE
        exact haux hnil
      | false =>
        rw [hE] at h
        simp at h
    · intro h
      subst h
      rfl
  have hres : ∀ (dias : List (String × DiaData)) (output : String),
      exportar_resumen_diario_csv dias output = none ↔ dias = [] := by
    intro dias output
    rw [exportar_resumen_csv_eq]
    constructor
    · intro h
      by_contra hne
      have haux := flatMapDias_ne_nil dias (fun dia => [filaResumen dia])
        (fun dia => by simp) hne
      cases hE : (filasResumenOrd dias).isEmpty with
      | true =>
        have hnil : filasResumenOrd dias = [] := by
          rwa [List.isEmpty_iff] at hE
        exact haux hnil
      | false =>
        rw [hE] at h
        simp at h
    · intro h
      subst h
      rfl
  refine ⟨⟨fun output => (hmetros [] output).mpr rfl,
    fun output => (hroc [] output).mpr rfl,
    fun output => (hres [] output).mpr rfl⟩, ?_⟩
  intro dias output
  exact ⟨hmetros dias output, hroc dias output, hres dias output⟩

/-! ## Claim C9 -/

/-- Lookup distributes over appended association lists, first list first. -/
theorem lookup_append {α : Type} (k : String) :
    ∀ l1 l2 : List (String × α),
      List.lookup k (l1 ++ l2) = (List.lookup k l1).or (List.lookup k l2) := by
  intro l1 l2
  induction l1 with
  | nil => simp [List.lookup]
  | cons p t ih =>
    obtain ⟨k1, v⟩ := p
    cases h : k == k1 with
    | true => simp [List.lookup, h]
    | false => simp [List.lookup, h, ih]

/-- The date-token fold over fresh accumulators splits into the matched
bindings and the unmatched diagnostics, in token order. -/
theorem procesar_fold_aux (wb : Workbook) :
    ∀ (fechas : List String) (acc : List (String × DiaData)) (avs : List String),
      fechas.Nodup → (∀ f ∈ fechas, List.lookup f acc = none) →
      fechas.foldl
        (fun acc fecha =>
          match obtener_dia wb fecha with
          | some dia => (dictInsert acc.1 fecha dia, acc.2)
          | none => (acc.1, acc.2 ++ [fecha])) (acc, avs) =
        (acc ++ (fechas.filter (fun f => (obtener_dia wb f).isSome)).map
            (fun f => (f, (obtener_dia wb f).getD default)),
         avs ++ fechas.filter (fun f => (obtener_dia wb f).isNone)) := by
  intro fechas
  induction fechas with
  | nil => intro acc avs _ _; simp
  | cons f t ih =>
    intro acc avs hnodup hfresh
    rw [List.foldl_cons]
    cases ho : obtener_dia wb f with
    | some dia =>
      have hlf : List.lookup f acc = none := hfresh f (List.mem_cons_self _ _)
      have hdict : dictInsert acc f dia = acc ++ [(f, dia)] := by
        rw [dictInsert, hlf]
        simp
      have hfresh2 : ∀ g ∈ t, List.lookup g (acc ++ [(f, dia)]) = none := by
        intro g hg
        have hgf : (g == f) = false := by
          have : g ≠ f := by
            intro hgf0
            subst hgf0
            exact (List.nodup_cons.mp hnodup).1 hg
          simpa using this
        rw [lookup_append, hfresh g (List.mem_cons_of_mem _ hg)]
        simp [List.lookup, hgf]
      have hrec := ih (acc ++ [(f, dia)]) avs (List.nodup_cons.mp hnodup).2 hfresh2
      simp only [ho, hdict]
      rw [hrec]
      simp [ho, List.filter_cons, List.append_assoc]
    | none =>
      have hrec := ih acc (avs ++ [f]) (List.nodup_cons.mp hnodup).2
        (fun g hg => hfresh g (List.mem_cons_of_mem _ hg))
      simp only [ho]
      rw [hrec]
      simp [ho, List.filter_cons, List.append_assoc]

/-- The diagnostics side of the date-token fold needs no freshness: it is
always the unmatched tokens appended in order. -/
theorem procesar_avisos_aux (wb : Workbook) :
    ∀ (fechas : List String) (acc : List (String × DiaData)) (avs : List String),
      (fechas.foldl
        (fun acc fecha =>
          match obtener_dia wb fecha with
          | some dia => (dictInsert acc.1 fecha dia, acc.2)
          | none => (acc.1, acc.2 ++ [fecha])) (acc, avs)).2 =
        avs ++ fechas.filter (fun f => (obtener_dia wb f).isNone) := by
  intro fechas
  induction fechas with
  | nil => intro acc avs; simp
  | cons f t ih =>
    intro acc avs
    rw [List.foldl_cons]
    cases ho : obtener_dia wb f with
    | some dia =>
      simp only [ho]
      rw [ih (dictInsert acc f dia) avs]
      simp [ho, List.filter_cons]
    | none =>
      simp only [ho]
      rw [ih acc (avs ++ [f])]
      simp [ho, List.filter_cons, List.append_assoc]

/-- Concrete workbook for the C9 scenario: one date sheet named 15-01. -/
def wb9 : Workbook :=
  { sheetnames := ["15-01"]
    hoja := fun _ _ _ => CellValue.nulo }

/-- C9: with date tokens, the per-token diagnostics are exactly the
unmatched tokens while processing continues; for distinct tokens the day
dict holds exactly the matched tokens, each bound to its single-day read;
the command terminates non-zero exactly when the day dict is empty; and
one known plus one unknown token keeps only the known date and reports
the unknown token. -/
theorem main_fechas_spec :
    (∀ (wb : Workbook) (fechas : List String), fechas.Nodup →
      procesar_fechas wb fechas =
        ((fechas.filter (fun f => (obtener_dia wb f).isSome)).map
          (fun f => (f, (obtener_dia wb f).getD default)),
         fechas.filter (fun f => (obtener_dia wb f).isNone))) ∧
    (∀ (wb : Workbook) (fechas : List String),
      (procesar_fechas wb fechas).2 =
        fechas.filter (fun f => (obtener_dia wb f).isNone)) ∧
    (∀ (wb : Workbook) (fechas : List String),
      main_exit_fechas wb fechas ≠ 0 ↔ (procesar_fechas wb fechas).1 = []) ∧
    ((procesar_fechas wb9 [("15-01"), ("99-99")]).1.map Prod.fst = [("15-01")] ∧
     (procesar_fechas wb9 [("15-01"), ("99-99")]).2 = [("99-99")]) := by
  refine ⟨?_, ?_, ?_, rfl, rfl⟩
  · intro wb fechas hnodup
    have h0 : procesar_fechas wb fechas =
        fechas.foldl
          (fun acc fecha =>
            match obtener_dia wb fecha with
            | some dia => (dictInsert acc.1 fecha dia, acc.2)
            | none => (acc.1, acc.2 ++ [fecha])) ([], []) := rfl
    rw [h0, procesar_fold_aux wb fechas [] [] hnodup (fun f _ => rfl)]
    simp
  · intro wb fechas
    have h0 : procesar_fechas wb fechas =
        fechas.foldl
          (fun acc fecha =>
            match obtener_dia wb fecha with
            | some dia => (dictInsert acc.1 fecha dia, acc.2)
            | none => (acc.1, acc.2 ++ [fecha])) ([], []) := rfl
    rw [h0, procesar_avisos_aux wb fechas [] []]
    simp
  · intro wb fechas
    rw [main_exit_fechas]
    cases hE : (procesar_fechas wb fechas).1.isEmpty with
    | true =>
      rw [List.isEmpty_iff] at hE
      simp [hE]
    | false =>
      have hne : (procesar_fechas wb fechas).1 ≠ [] := by
        intro h0
        rw [h0] at hE
        simp at hE
      simp [hne]

/-- Closed instance of the claim C9 theorem: the distinct-token shape at
the concrete known-plus-unknown scenario. -/
theorem main_fechas_spec_witness :
    List.Nodup [("15-01"), ("99-99")] ∧
    procesar_fechas wb9 [("15-01"), ("99-99")] =
      (([("15-01"), ("99-99")].filter
          (fun f => (obtener_dia wb9 f).isSome)).map
        (fun f => (f, (obtener_dia wb9 f).getD default)),
       [("15-01"), ("99-99")].filter (fun f => (obtener_dia wb9 f).isNone)) :=
  ⟨by decide, main_fechas_spec.1 wb9 [("15-01"), ("99-99")] (by decide)⟩

/-! ## Claim C10 -/

/-- C10: every day record produced by the sheet reader has exactly the
four phase labels as its phase-dict keys (in insertion order F12, F10,
F09, F11); each label the exporters look up is bound to the full phase
read of its fixed row range, so the absent-phase default branch of the
daily summary (0.0 columns) is never taken on extractor output, its
columns being the read phase totals instead. -/
theorem leer_dia_fases_completas :
    (∀ (wb : Workbook) (nombre_hoja : String),
      ((leer_dia wb nombre_hoja).fases).map Prod.fst = ["F12", "F10", "F09", "F11"]) ∧
    (∀ (wb : Workbook) (nombre_hoja : String),
      List.lookup ("F12") (leer_dia wb nombre_hoja).fases =
        some (_leer_fase (wb.hoja nombre_hoja) ("F12") 6 9) ∧
      List.lookup ("F10") (leer_dia wb nombre_hoja).fases =
        some (_leer_fase (wb.hoja nombre_hoja) ("F10") 11 15) ∧
      List.lookup ("F09") (leer_dia wb nombre_hoja).fases =
        some (_leer_fase (wb.hoja nombre_hoja) ("F09") 17 25) ∧
      List.lookup ("F11") (leer_dia wb nombre_hoja).fases =
        some (_leer_fase (wb.hoja nombre_hoja) ("F11") 27 31)) ∧
    (∀ (wb : Workbook) (nombre_hoja : String),
      resumenFaseTotal (leer_dia wb nombre_hoja) ("F09") =
        (_leer_fase (wb.hoja nombre_hoja) ("F09") 17 25).total ∧
      resumenFaseTotal (leer_dia wb nombre_hoja) ("F10") =
        (_leer_fase (wb.hoja nombre_hoja) ("F10") 11 15).total ∧
      resumenFaseTotal (leer_dia wb nombre_hoja) ("F11") =
        (_leer_fase (wb.hoja nombre_hoja) ("F11") 27 31).total ∧
      resumenFaseTotal (leer_dia wb nombre_hoja) ("F12") =
        (_leer_fase (wb.hoja nombre_hoja) ("F12") 6 9).total) :=
  ⟨fun _ _ => rfl,
   fun _ _ => ⟨rfl, rfl, rfl, rfl⟩,
   fun _ _ => ⟨rfl, rfl, rfl, rfl⟩⟩

end PlanDiario
